import Mathlib

/-!
Verification development for the Network Configuration Security Analyzer.

The Python source (app.py) is shallowly embedded here.  Regular-expression
matching performed by the `re` module is abstracted as function parameters
(an oracle per call shape: whole-text search with MULTILINE|IGNORECASE,
single-line search with IGNORECASE, first-match capture, and finditer);
all surrounding control flow, scoring, extraction and dispatch logic is
translated concretely.  `litRe` below instantiates the oracles with literal
substring semantics, which coincides with Python `re` on metacharacter-free
patterns; it is used to evaluate concrete inputs.
-/

/-- Python str.lower (ASCII). -/
def pyLower (s : String) : String := ⟨s.data.map Char.toLower⟩

/-- Python str.strip() with no argument: remove leading/trailing whitespace. -/
def pyStrip (s : String) : String :=
  ⟨((s.data.dropWhile Char.isWhitespace).reverse.dropWhile Char.isWhitespace).reverse⟩

/-- Python str.rstrip(): remove trailing whitespace. -/
def pyRstrip (s : String) : String :=
  ⟨(s.data.reverse.dropWhile Char.isWhitespace).reverse⟩

/-- Python "str1" + sep.join(...): join a list of strings with a separator,
mirroring sep.join(list). -/
def joinWith (sep : String) : List String → String
  | [] => ""
  | [x] => x
  | x :: y :: t => x ++ sep ++ joinWith sep (y :: t)

/-- Split a character list at newline characters (keeping a trailing empty
segment, like str.split("\n")). -/
def splitNlChars : List Char → List (List Char)
  | [] => [[]]
  | c :: t =>
    if c = '\n' then [] :: splitNlChars t
    else
      match splitNlChars t with
      | [] => [[c]]
      | l :: ls => (c :: l) :: ls

/-- Python str.splitlines() on LF-normalized text: split at newlines, with no
trailing empty line for text ending in a newline, and [] for the empty string. -/
def splitlines (s : String) : List String :=
  if s.data = [] then []
  else
    let parts := splitNlChars s.data
    let parts2 := if s.data.getLast? = some '\n' then parts.dropLast else parts
    parts2.map (fun l => ⟨l⟩)

/-- Boolean prefix test on character lists. -/
def listStarts : List Char → List Char → Bool
  | [], _ => true
  | _ :: _, [] => false
  | a :: as, b :: bs => a = b && listStarts as bs

/-- Python str.startswith. -/
def strStarts (p s : String) : Bool := listStarts p.data s.data

/-- Substring occurrence test on character lists. -/
def subList : List Char → List Char → Bool
  | n, [] => listStarts n []
  | n, c :: t => listStarts n (c :: t) || subList n t

/-- Substring occurrence test on strings (semantics of re.search for a
metacharacter-free pattern). -/
def containsSub (p s : String) : Bool := subList p.data s.data

/-- The needle occurs somewhere inside the haystack. -/
def ContainsStr (hay needle : String) : Prop := ∃ a b : String, hay = a ++ needle ++ b

/-- Number of lines of a (nonempty, newline-separated) string. -/
def lineCount (s : String) : Nat := s.data.count '\n' + 1

/-- Python 3.7+ re.escape: backslash-escape regex metacharacters. -/
def reEscape (s : String) : String :=
  ⟨s.data.foldr
    (fun c acc =>
      if c ∈ ['(', ')', '[', ']', '\x7b', '\x7d', '?', '*', '+', '-', '|', '^',
              '$', '\\', '.', '&', '~', '#', ' ', '\t', '\n', '\r']
      then '\\' :: c :: acc
      else c :: acc) []⟩

/-! ## Device-type detection (detect_device_type, app.py lines 88-188) -/

/-- Scores record returned by detect_device_type. -/
structure Scores where
  router_score : Nat
  switch_score : Nat
  l3_score : Nat
deriving Repr, DecidableEq

/-- Router hardware model regexes (matched caselessly against lowered text). -/
def router_models : List String :=
  ["\\bisr\\b", "\\basr\\b",
   "\\bcisco\\s*29\\d\x7b2\x7d\\b",
   "\\bcisco\\s*19\\d\x7b2\x7d\\b",
   "\\bcisco\\s*39\\d\x7b2\x7d\\b"]

/-- Switch hardware model regexes. -/
def switch_models : List String :=
  ["\\bws-c\\d\x7b4\x7d\\b", "\\bcatalyst\\b", "\\bc\\d\x7b4\x7d\\b", "\\bnexus\\b"]

/-- Switch feature patterns with weight and indicator text. -/
def switch_patterns : List (String × Nat × String) :=
  [("^\\s*switchport\\b", 6, "Switchport found"),
   ("^\\s*spanning-tree\\b", 6, "Spanning-tree found"),
   ("^\\s*vlan\\s+\\d+\\b", 4, "VLAN config found"),
   ("^\\s*channel-group\\b", 3, "Port-channel config found"),
   ("^\\s*ip dhcp snooping\\b", 5, "DHCP snooping found")]

/-- Router feature patterns with weight and indicator text. -/
def router_patterns : List (String × Nat × String) :=
  [("^\\s*ip nat\\b", 6, "NAT found"),
   ("^\\s*crypto (isakmp|ikev2|ipsec)\\b", 6, "VPN/Crypto found"),
   ("^\\s*interface\\s+(Serial|Tunnel|Dialer|Cellular)\\d+", 6, "WAN interface found"),
   ("^\\s*router\\s+(bgp|eigrp|rip|isis)\\b", 5, "Routing protocol found")]

def pat_svi : String := "^\\s*interface\\s+Vlan\\d+\\b"
def pat_iprouting : String := "^\\s*ip routing\\b"
def pat_iproute : String := "^\\s*ip route\\b"
def pat_noswitchport : String := "^\\s*no switchport\\b"

/-- detect_device_type.  `s0 pat text` models re.search(pat, text) with no
flags; `sMI pat text` models re.search(pat, text, re.M | re.I).  Returns
(device_type, confidence, indicators[:15], scores). -/
def detect_device_type (s0 sMI : String → String → Bool) (cfg : String) :
    String × String × List String × Scores :=
  let cfg_lower := pyLower cfg
  let routerHw := router_models.any (fun p => s0 p cfg_lower)
  let switchHw := switch_models.any (fun p => s0 p cfg_lower)
  let swHits := switch_patterns.filter (fun t => sMI t.1 cfg)
  let rtHits := router_patterns.filter (fun t => sMI t.1 cfg)
  let svi := sMI pat_svi cfg
  let routing := sMI pat_iprouting cfg
  let route := sMI pat_iproute cfg
  let noswp := sMI pat_noswitchport cfg
  let router_score : Nat := (if routerHw then 8 else 0) + (rtHits.map (fun t => t.2.1)).sum
  let switch_score : Nat :=
    (if switchHw then 8 else 0) + (swHits.map (fun t => t.2.1)).sum +
    (if svi then 5 else 0) + (if routing then 4 else 0) +
    (if route then 3 else 0) + (if noswp then 3 else 0)
  let l3_score : Nat :=
    (if svi then 8 else 0) + (if routing then 8 else 0) +
    (if route then 6 else 0) + (if noswp then 6 else 0)
  let indicators :=
    (if routerHw then ["Router hardware model signature found"] else []) ++
    (if switchHw then ["Switch hardware model signature found"] else []) ++
    swHits.map (fun t => t.2.2) ++ rtHits.map (fun t => t.2.2) ++
    (if svi then ["SVI found (interface VlanX)"] else []) ++
    (if routing then ["ip routing enabled"] else []) ++
    (if route then ["Static route found (ip route)"] else []) ++
    (if noswp then ["Routed port found (no switchport)"] else [])
  let device_type :=
    if 12 ≤ l3_score ∧ 10 ≤ switch_score then "switch_l3"
    else if switch_score + 4 ≤ router_score ∧ 10 ≤ router_score then "router"
    else if router_score + 4 ≤ switch_score ∧ 10 ≤ switch_score then "switch_l2"
    else "unknown"
  let confidence :=
    if device_type = "unknown" then "Low"
    else if 22 ≤ max router_score (max switch_score l3_score) then "High"
    else if 14 ≤ max router_score (max switch_score l3_score) then "Medium"
    else "Low"
  (device_type, confidence, indicators.take 15, ⟨router_score, switch_score, l3_score⟩)

/-- Device-type decision as worded by the specification, as a function of the
scores alone. -/
def specDeviceTypeOfScores (s : Scores) : String :=
  if 12 ≤ s.l3_score ∧ 10 ≤ s.switch_score then "switch_l3"
  else if s.switch_score + 4 ≤ s.router_score ∧ 10 ≤ s.router_score then "router"
  else if s.router_score + 4 ≤ s.switch_score ∧ 10 ≤ s.switch_score then "switch_l2"
  else "unknown"

/-- Confidence band as worded by the specification, as a function of the top
score. -/
def specBand (top : Nat) : String :=
  if 22 ≤ top then "High" else if 14 ≤ top then "Medium" else "Low"

/-- Confidence as worded by the specification, as a function of the device
type and the scores. -/
def specConfidence (device_type : String) (s : Scores) : String :=
  if device_type = "unknown" then "Low"
  else specBand (max s.router_score (max s.switch_score s.l3_score))

/-! ## Block extraction (extract_blocks, app.py lines 194-216) -/

/-- re.match(r"^[A-Za-z]", line): the line starts with an unindented ASCII
letter. -/
def startsAlpha (l : String) : Bool :=
  match l.data with
  | [] => false
  | c :: _ => ('A' ≤ c && c ≤ 'Z') || ('a' ≤ c && c ≤ 'z')

/-- A line that terminates the block currently being collected: either its
stripped content is exactly "!", or it starts with an unindented letter. -/
def isTerminator (l : String) : Bool := pyStrip l == "!" || startsAlpha l

/-- The two-state scanning loop of extract_blocks.  State none = scanning for
a header line; state some blk = collecting lines into the current block.  In
both terminator cases the terminating line is consumed (the source increments
the line index past it after appending the block). -/
def extractBlocksGo (hdr : String → Bool) : List String → Option (List String) → List String
  | [], none => []
  | [], some blk => [joinWith "\n" blk]
  | l :: ls, none =>
    if hdr l then extractBlocksGo hdr ls (some [l])
    else extractBlocksGo hdr ls none
  | l :: ls, some blk =>
    if isTerminator l then joinWith "\n" blk :: extractBlocksGo hdr ls none
    else extractBlocksGo hdr ls (some (blk ++ [l]))

/-- extract_blocks: `hdr line` models re.search(header_regex, line, re.I). -/
def extract_blocks (hdr : String → Bool) (cfg : String) : List String :=
  extractBlocksGo hdr (splitlines cfg) none

/-! ## Banner extraction (extract_banner, app.py lines 239-263) -/

/-- Split a character list into maximal whitespace-free words. -/
def splitWsGo : List Char → List Char → List (List Char)
  | acc, [] => if acc = [] then [] else [acc.reverse]
  | acc, c :: t =>
    if c.isWhitespace then
      (if acc = [] then splitWsGo [] t else acc.reverse :: splitWsGo [] t)
    else splitWsGo (c :: acc) t

/-- Whitespace-separated words of a string. -/
def pySplitWs (s : String) : List String := (splitWsGo [] s.data).map (fun l => ⟨l⟩)

/-- A line matching r"(?im)^\s*banner\s+TYPE\s+(\S+)\s*$": exactly the three
whitespace-separated words "banner", the banner type (both caselessly) and an
arbitrary delimiter token, which is returned. -/
def isBannerDecl (banner_type line : String) : Option String :=
  match pySplitWs line with
  | [a, b, c] =>
    if pyLower a == "banner" && pyLower b == pyLower banner_type then some c else none
  | _ => none

/-- Locate the first banner declaration line; return the declared delimiter
and the lines after the declaration. -/
def findDecl (banner_type : String) : List String → Option (String × List String)
  | [] => none
  | l :: ls =>
    match isBannerDecl banner_type l with
    | some tok => some (tok, ls)
    | none => findDecl banner_type ls

/-- Deduplicate preserving first-seen order (the seen-set comprehension of the
source). -/
def dedupFirstAux (seen : List String) : List String → List String
  | [] => []
  | x :: xs =>
    if x ∈ seen then dedupFirstAux seen xs
    else x :: dedupFirstAux (x :: seen) xs

/-- Candidate end delimiters: the declared delimiter; then "^C" when the
declared delimiter starts with "^" and is longer than 2 characters; then "^C"
as a final fallback; deduplicated preserving first-seen order. -/
def possible_end_delims (start_delim : String) : List String :=
  dedupFirstAux []
    ((start_delim ::
      (if strStarts "^" start_delim ∧ 2 < start_delim.length then ["^C"] else [])) ++
     ["^C"])

/-- Remove trailing '\n' characters and leading '\n' characters
(Python str.strip("\n")). -/
def stripNl (s : String) : String :=
  ⟨((s.data.dropWhile (· = '\n')).reverse.dropWhile (· = '\n')).reverse⟩

/-- Drop the trailing run of whitespace-only lines (these are absorbed by the
leading \s* of the terminator regex, so they never reach the banner body). -/
def dropTrailingWs (ls : List String) : List String :=
  (ls.reverse.dropWhile (fun l => pyStrip l == "")).reverse

/-- extract_banner: find the declaration line, then search the text after it
for the first candidate delimiter occurring alone (modulo surrounding
whitespace) on a line; the body is everything in between, stripped of
surrounding newlines.  Returns none ("not found") when there is no
declaration or no terminator. -/
def extract_banner (cfg_text banner_type : String) : Option String :=
  match findDecl banner_type (splitlines cfg_text) with
  | none => none
  | some (start_delim, after) =>
    match (possible_end_delims start_delim).find? (fun d => after.any (fun l => pyStrip l == d)) with
    | none => none
    | some d =>
      let body := after.takeWhile (fun l => pyStrip l != d)
      let content := stripNl (joinWith "\n" (dropTrailingWs body))
      some ("banner " ++ banner_type ++ " " ++ start_delim ++ "\n" ++ content ++ "\n" ++ d)

/-! ## Evidence helpers (evidence_regex / evidence_all_lines, app.py 219-236) -/

/-- evidence_regex: the first (at most) 8 lines matching the pattern,
right-stripped and joined with newlines; "-" when no line matches.
`m line` models re.search(pattern, line, re.I). -/
def evidence_regex (m : String → Bool) (text : String) : String :=
  let ev := (((splitlines text).filter m).take 8).map pyRstrip
  if ev = [] then "-" else joinWith "\n" ev

/-- evidence_all_lines: all matching lines right-stripped, the first 200 of
them joined with newlines; "-" when no line matches. -/
def evidence_all_lines (m : String → Bool) (text : String) : String :=
  let ev := ((splitlines text).filter m).map pyRstrip
  if ev = [] then "-" else joinWith "\n" (ev.take 200)

/-! ## The rule engine (run_rule, app.py lines 269-430) -/

/-- A declarative rule record (missing pattern/block/banner_type map to the
source's dict.get defaults; evidence_pattern none models a missing key). -/
structure Rule where
  type : String
  title : String
  pattern : String
  expect : String
  block : String
  evidence_pattern : Option String
  banner_type : String

/-- The regular-expression oracles used by run_rule: whole-text search with
re.M|re.I, single-line search with re.I, first-match capture (group(0)) with
re.M|re.I, and finditer (all non-overlapping matched substrings) with
re.M|re.I. -/
structure Re where
  searchMI : String → String → Bool
  searchI : String → String → Bool
  captureMI : String → String → Option String
  finditerMI : String → String → List String

/-- Python `x or "-"` on a string. -/
def orDash (s : String) : String := if s = "" then "-" else s

/-- First line of a (nonempty multi-line) block string. -/
def firstLine (blk : String) : String := (splitlines blk).headD ""

/-- The "regex" branch of run_rule. -/
def runRegex (re : Re) (cfg : String) (r : Rule) : String × String × String :=
  let expect := pyLower r.expect
  if r.pattern = "" then ("MANUAL", r.title ++ " (pattern missing)", "-")
  else
    let found := re.searchMI r.pattern cfg
    let ev := evidence_regex (re.searchI r.pattern) cfg
    if expect = "present" then
      if found then ("PASS", "Matched", ev) else ("FAIL", "Not found", "-")
    else if expect = "absent" then
      if found then ("FAIL", "Insecure config found", ev) else ("PASS", "Not present (good)", "-")
    else if expect = "manual" then
      ("MANUAL", "Manual verification required", if found then ev else "-")
    else ("MANUAL", "Invalid expect value", "-")

/-- The "regex_capture" branch of run_rule. -/
def runRegexCapture (re : Re) (cfg : String) (r : Rule) : String × String × String :=
  let expect := pyLower r.expect
  if r.pattern = "" then ("MANUAL", r.title ++ " (pattern missing)", "-")
  else
    match re.captureMI r.pattern cfg with
    | some s =>
      if expect = "present" then ("PASS", "Matched", pyStrip s)
      else if expect = "absent" then ("FAIL", "Insecure config found", pyStrip s)
      else ("MANUAL", "Invalid expect value", "-")
    | none =>
      if expect = "present" then ("FAIL", "Not found", "-")
      else if expect = "absent" then ("PASS", "Not present (good)", "-")
      else ("MANUAL", "Invalid expect value", "-")

/-- The "regex_capture_all" branch of run_rule. -/
def runRegexCaptureAll (re : Re) (cfg : String) (r : Rule) : String × String × String :=
  let expect := pyLower r.expect
  if r.pattern = "" then ("MANUAL", r.title ++ " (pattern missing)", "-")
  else
    let ms := re.finditerMI r.pattern cfg
    if ms = [] then
      if expect = "present" then ("FAIL", "Not found", "-")
      else if expect = "absent" then ("PASS", "Not present (good)", "-")
      else ("MANUAL", "Invalid expect value", "-")
    else
      let output_lines := (ms.map pyStrip).filter (fun s => s ≠ "")
      let evidence := joinWith "\n" (output_lines.take 200)
      if expect = "present" then
        ("PASS", "Matched " ++ Nat.repr output_lines.length ++ " entries", evidence)
      else if expect = "absent" then
        ("FAIL", "Insecure config found (" ++ Nat.repr output_lines.length ++ " entries)",
         evidence)
      else ("MANUAL", "Invalid expect value", evidence)

/-- The "banner" branch of run_rule. -/
def runBanner (cfg : String) (r : Rule) : String × String × String :=
  let banner_type := pyLower (pyStrip r.banner_type)
  let expect := pyLower r.expect
  match extract_banner cfg banner_type with
  | some t =>
    if expect = "present" then ("PASS", "Matched", t)
    else if expect = "absent" then ("FAIL", "Banner present (should be removed)", t)
    else ("MANUAL", "Invalid expect value", "-")
  | none =>
    if expect = "present" then ("FAIL", "Not found", "-")
    else if expect = "absent" then ("PASS", "Not present (good)", "-")
    else ("MANUAL", "Invalid expect value", "-")

/-- Per matching block, the source appends the block's first line and then the
block-scoped evidence. -/
def blockEvidencePairs (f : String → String) : List String → List String
  | [] => []
  | b :: bs => firstLine b :: f b :: blockEvidencePairs f bs

/-- The "block_present" branch of run_rule. -/
def runBlockPresent (re : Re) (cfg : String) (r : Rule) : String × String × String :=
  if r.block = "" ∨ r.pattern = "" then
    ("MANUAL", r.title ++ " (block/pattern missing)", "-")
  else
    let blocks := extract_blocks (re.searchI ("^" ++ reEscape r.block)) cfg
    if blocks = [] then ("FAIL", r.block ++ " block not found", "-")
    else
      let expect := pyLower r.expect
      let ep := r.evidence_pattern.getD ""
      let matched := blocks.filter (fun blk => re.searchMI r.pattern blk)
      let found_any := matched ≠ []
      let all_evidence := blockEvidencePairs
        (fun blk =>
          if ep ≠ "" then evidence_all_lines (re.searchI ep) blk
          else evidence_all_lines (re.searchI r.pattern) blk) matched
      let evidence := orDash (pyStrip (joinWith "\n" all_evidence))
      if expect = "present" then
        if found_any then
          ("PASS", "Matched in " ++ Nat.repr (all_evidence.length / 2) ++ " block(s)", evidence)
        else ("FAIL", "Not found", "-")
      else if expect = "manual" then
        if found_any then
          ("MANUAL", "Matched in " ++ Nat.repr (all_evidence.length / 2) ++ " block(s)", evidence)
        else ("MANUAL", "Manual verification required", "-")
      else ("MANUAL", "Invalid expect value", evidence)

/-- The "block_absent" branch of run_rule. -/
def runBlockAbsent (re : Re) (cfg : String) (r : Rule) : String × String × String :=
  if r.block = "" ∨ r.pattern = "" then
    ("MANUAL", r.title ++ " (block/pattern missing)", "-")
  else
    let blocks := extract_blocks (re.searchI ("^" ++ reEscape r.block)) cfg
    if blocks = [] then ("FAIL", r.block ++ " block not found", "-")
    else
      let expect := pyLower r.expect
      let ep := r.evidence_pattern.getD ""
      let matched := blocks.filter (fun blk => re.searchMI r.pattern blk)
      let found_any := matched ≠ []
      let evidence_lines := matched.map
        (fun blk =>
          if ep ≠ "" then evidence_all_lines (re.searchI ep) blk
          else evidence_regex (re.searchI r.pattern) blk)
      let evidence :=
        orDash (pyStrip (joinWith "\n\n" (evidence_lines.filter (fun x => x ≠ "" ∧ x ≠ "-"))))
      if expect = "absent" then
        if found_any then ("FAIL", "Insecure config found in block", evidence)
        else ("PASS", "Not present (good)", "-")
      else ("MANUAL", "Invalid expect value", "-")

/-- run_rule: dispatch on the lowered, stripped rule type.  Returns
(status, remark, evidence). -/
def run_rule (re : Re) (cfg : String) (r : Rule) : String × String × String :=
  let rule_type := pyStrip (pyLower r.type)
  if rule_type = "manual" then ("MANUAL", "Manual verification required", "-")
  else if rule_type = "regex" then runRegex re cfg r
  else if rule_type = "regex_capture" then runRegexCapture re cfg r
  else if rule_type = "regex_capture_all" then runRegexCaptureAll re cfg r
  else if rule_type = "banner" then runBanner cfg r
  else if rule_type = "block_present" then runBlockPresent re cfg r
  else if rule_type = "block_absent" then runBlockAbsent re cfg r
  else ("MANUAL", "Rule type not supported", "-")

/-! ## A concrete oracle: literal substring matching.  Coincides with the re
module on metacharacter-free patterns (used to evaluate concrete inputs). -/

/-- All non-overlapping literal occurrences, left to right, fuel-bounded. -/
def litFindAllF (n : List Char) : Nat → List Char → List (List Char)
  | 0, _ => []
  | _, [] => []
  | Nat.succ f, c :: t =>
    if n ≠ [] ∧ listStarts n (c :: t) then n :: litFindAllF n f (t.drop (n.length - 1))
    else litFindAllF n f t

/-- Literal-substring instantiation of the regex oracles. -/
def litRe : Re :=
  ⟨containsSub,
   containsSub,
   fun p s => if containsSub p s then some p else none,
   fun p s => (litFindAllF p.data s.data.length s.data).map (fun l => ⟨l⟩)⟩

/-! ## Helper lemmas -/

theorem strExt {a b : String} (h : a.data = b.data) : a = b := by
  cases a; cases b; exact congrArg String.mk h

theorem strData_append (a b : String) : (a ++ b).data = a.data ++ b.data := rfl

theorem str_append_assoc (a b c : String) : a ++ b ++ c = a ++ (b ++ c) :=
  strExt (by simp [strData_append])

theorem str_empty_append (a : String) : "" ++ a = a :=
  strExt (by simp [strData_append])

theorem str_append_empty (a : String) : a ++ "" = a :=
  strExt (by simp [strData_append])

theorem joinWith_ne_empty (sep : String) :
    ∀ l : List String, l ≠ [] → (∀ x ∈ l, x ≠ "") → joinWith sep l ≠ "" := by
  intro l
  induction l with
  | nil => intro h; exact absurd rfl h
  | cons a t ih =>
    intro _ hall
    cases t with
    | nil => simpa [joinWith] using hall a (by simp)
    | cons b t2 =>
      intro hEq
      have hdata := congrArg String.data hEq
      simp [joinWith, strData_append] at hdata
      exact hall a (by simp) (strExt (by simp [hdata.1]))

theorem mem_joinWith (sep : String) :
    ∀ (l : List String) (x : String), x ∈ l → ContainsStr (joinWith sep l) x := by
  intro l
  induction l with
  | nil => intro x hx; cases hx
  | cons a t ih =>
    intro x hx
    cases t with
    | nil =>
      rcases List.mem_singleton.mp hx with rfl
      exact ⟨"", "", strExt (by simp [joinWith, strData_append])⟩
    | cons b t2 =>
      rcases List.mem_cons.mp hx with rfl | hx2
      · exact ⟨"", sep ++ joinWith sep (b :: t2),
          strExt (by simp [joinWith, strData_append])⟩
      · rcases ih x hx2 with ⟨u, v, huv⟩
        exact ⟨a ++ sep ++ u, v, strExt (by simp [joinWith, strData_append, huv])⟩

theorem orDash_ne (s : String) : orDash s ≠ "" := by
  by_cases h : s = "" <;> simp [orDash, h]

/-- Dispatch lemmas for run_rule: one per rule-type branch. -/
theorem run_rule_eq_manual (re : Re) (cfg : String) (r : Rule)
    (h : pyStrip (pyLower r.type) = "manual") :
    run_rule re cfg r = ("MANUAL", "Manual verification required", "-") := by
  simp [run_rule, h]

theorem run_rule_eq_regex (re : Re) (cfg : String) (r : Rule)
    (h : pyStrip (pyLower r.type) = "regex") :
    run_rule re cfg r = runRegex re cfg r := by
  simp [run_rule, h]

theorem run_rule_eq_regex_capture (re : Re) (cfg : String) (r : Rule)
    (h : pyStrip (pyLower r.type) = "regex_capture") :
    run_rule re cfg r = runRegexCapture re cfg r := by
  simp [run_rule, h]

theorem run_rule_eq_regex_capture_all (re : Re) (cfg : String) (r : Rule)
    (h : pyStrip (pyLower r.type) = "regex_capture_all") :
    run_rule re cfg r = runRegexCaptureAll re cfg r := by
  simp [run_rule, h]

theorem run_rule_eq_banner (re : Re) (cfg : String) (r : Rule)
    (h : pyStrip (pyLower r.type) = "banner") :
    run_rule re cfg r = runBanner cfg r := by
  simp [run_rule, h]

theorem run_rule_eq_block_present (re : Re) (cfg : String) (r : Rule)
    (h : pyStrip (pyLower r.type) = "block_present") :
    run_rule re cfg r = runBlockPresent re cfg r := by
  simp [run_rule, h]

theorem run_rule_eq_block_absent (re : Re) (cfg : String) (r : Rule)
    (h : pyStrip (pyLower r.type) = "block_absent") :
    run_rule re cfg r = runBlockAbsent re cfg r := by
  simp [run_rule, h]

theorem run_rule_eq_unsupported (re : Re) (cfg : String) (r : Rule)
    (h1 : pyStrip (pyLower r.type) ≠ "manual")
    (h2 : pyStrip (pyLower r.type) ≠ "regex")
    (h3 : pyStrip (pyLower r.type) ≠ "regex_capture")
    (h4 : pyStrip (pyLower r.type) ≠ "regex_capture_all")
    (h5 : pyStrip (pyLower r.type) ≠ "banner")
    (h6 : pyStrip (pyLower r.type) ≠ "block_present")
    (h7 : pyStrip (pyLower r.type) ≠ "block_absent") :
    run_rule re cfg r = ("MANUAL", "Rule type not supported", "-") := by
  simp [run_rule, h1, h2, h3, h4, h5, h6, h7]

/-! ## Claim theorems -/

/-- C1: for every input (and any regular-expression semantics), the device
type returned by detect_device_type is exactly the stated priority-ordered
function of the scores it returns: switch_l3 when l3_score ≥ 12 and
switch_score ≥ 10; otherwise router when router_score ≥ switch_score + 4 and
router_score ≥ 10; otherwise switch_l2 when switch_score ≥ router_score + 4
and switch_score ≥ 10; otherwise unknown. -/
theorem C1_device_type_from_scores (s0 sMI : String → String → Bool) (cfg : String) :
    (detect_device_type s0 sMI cfg).1 =
      specDeviceTypeOfScores (detect_device_type s0 sMI cfg).2.2.2 := rfl

/-- C3: for every input, the confidence returned by detect_device_type is
exactly the stated function of the returned device type and scores (Low for
unknown, otherwise banded on the top score), and the band boundaries are:
22 is High, 21 is Medium, 13 is Low. -/
theorem C3_confidence_from_scores (s0 sMI : String → String → Bool) (cfg : String) :
    (detect_device_type s0 sMI cfg).2.1 =
      specConfidence (detect_device_type s0 sMI cfg).1
        (detect_device_type s0 sMI cfg).2.2.2 ∧
    specBand 22 = "High" ∧ specBand 21 = "Medium" ∧ specBand 13 = "Low" :=
  ⟨rfl, by decide, by decide, by decide⟩

/-- C6 counterexample: the claim asserts that an unindented alphabetic line
ending a block is re-examined and can itself start a new block, and that only
a line that is exactly "!" is consumed as a terminator.  Both parts fail on
the code: in the first input the line "interface Vlan2" matches the header
predicate yet no second block is produced (the line is consumed), and in the
second input the line " !" (not exactly "!") still terminates the block and
the following indented line is not appended. -/
theorem C6_counterexample_terminator_consumed :
    extract_blocks (fun l => strStarts "interface Vlan" l)
      "interface Vlan1\n ip address 10.0.0.1\ninterface Vlan2\n shutdown" =
      ["interface Vlan1\n ip address 10.0.0.1"] ∧
    strStarts "interface Vlan" "interface Vlan2" = true ∧
    extract_blocks (fun l => strStarts "line vty" l)
      "line vty 0 4\n !\n password x" = ["line vty 0 4"] := by
  refine ⟨by decide, by decide, by decide⟩

/-- C6 amended: while inside a block, every subsequent line is appended to the
current block up to the first terminating line — a line whose stripped content
is "!" or a line starting with an unindented alphabetic character; in both
cases the terminating line is consumed without being appended (it is not
re-examined, so it cannot itself start a new block), and scanning resumes on
the line after it. -/
theorem C6_amended_inblock_behavior (hdr : String → Bool) (ls blk : List String) :
    extractBlocksGo hdr ls (some blk) =
      joinWith "\n" (blk ++ ls.takeWhile (fun l => !(isTerminator l))) ::
        extractBlocksGo hdr ((ls.dropWhile (fun l => !(isTerminator l))).drop 1) none := by
  induction ls generalizing blk with
  | nil => simp [extractBlocksGo]
  | cons l t ih =>
    by_cases h : isTerminator l = true
    · simp [extractBlocksGo, h]
    · have h2 : isTerminator l = false := by simpa using h
      simp only [extractBlocksGo, h2, Bool.false_eq_true, if_false,
        List.takeWhile_cons, List.dropWhile_cons, Bool.not_false, if_true, ih (blk ++ [l])]
      rw [List.append_assoc]
      simp

/-- C2: for every text and non-empty pattern that matches the text (under any
regular-expression semantics), a regex rule with expect=absent yields FAIL
with remark "Insecure config found" and the line evidence, the same rule with
expect=present yields PASS with the same evidence, and that evidence contains
each of the (first 8) matching lines, right-stripped. -/
theorem C2_regex_absent_fail_present_pass (re : Re) (cfg pattern title : String)
    (hp : pattern ≠ "") (hm : re.searchMI pattern cfg = true) :
    run_rule re cfg ⟨"regex", title, pattern, "absent", "", none, "login"⟩ =
      ("FAIL", "Insecure config found", evidence_regex (re.searchI pattern) cfg) ∧
    run_rule re cfg ⟨"regex", title, pattern, "present", "", none, "login"⟩ =
      ("PASS", "Matched", evidence_regex (re.searchI pattern) cfg) ∧
    ∀ l ∈ ((splitlines cfg).filter (re.searchI pattern)).take 8,
      ContainsStr (evidence_regex (re.searchI pattern) cfg) (pyRstrip l) := by
  refine ⟨?_, ?_, ?_⟩
  · rw [run_rule_eq_regex re cfg ⟨"regex", title, pattern, "absent", "", none, "login"⟩
      rfl]
    simp [runRegex, hp, hm, show pyLower "absent" = "absent" from rfl]
  · rw [run_rule_eq_regex re cfg ⟨"regex", title, pattern, "present", "", none, "login"⟩
      rfl]
    simp [runRegex, hp, hm, show pyLower "present" = "present" from rfl]
  · intro l hl
    have hmem : pyRstrip l ∈ (((splitlines cfg).filter (re.searchI pattern)).take 8).map pyRstrip :=
      List.mem_map_of_mem _ hl
    have hne : (((splitlines cfg).filter (re.searchI pattern)).take 8).map pyRstrip ≠ [] :=
      List.ne_nil_of_mem hmem
    simp only [evidence_regex, if_neg hne]
    exact mem_joinWith _ _ _ hmem

/-- C2 witness: a concrete configuration with an insecure telnet line. -/
theorem C2_witness :
    run_rule litRe "line vty 0 4\n transport input telnet"
        ⟨"regex", "T", "telnet", "absent", "", none, "login"⟩ =
      ("FAIL", "Insecure config found", " transport input telnet") ∧
    run_rule litRe "line vty 0 4\n transport input telnet"
        ⟨"regex", "T", "telnet", "present", "", none, "login"⟩ =
      ("PASS", "Matched", " transport input telnet") := by
  have h := C2_regex_absent_fail_present_pass litRe
    "line vty 0 4\n transport input telnet" "telnet" "T" (by decide) (by decide)
  exact ⟨h.1.trans (by decide), h.2.1.trans (by decide)⟩

/-- C4: for any block_present or block_absent rule with non-empty block header
and pattern, when no block matches the header the result is FAIL with the
remark "<header> block not found" (which contains "block not found"),
regardless of the rule's expect value. -/
theorem C4_block_not_found_fail (re : Re) (cfg : String) (r : Rule)
    (ht : pyStrip (pyLower r.type) = "block_present" ∨
          pyStrip (pyLower r.type) = "block_absent")
    (hb : r.block ≠ "") (hp : r.pattern ≠ "")
    (hblocks : extract_blocks (re.searchI ("^" ++ reEscape r.block)) cfg = []) :
    run_rule re cfg r = ("FAIL", r.block ++ " block not found", "-") := by
  rcases ht with h | h
  · rw [run_rule_eq_block_present re cfg r h]
    simp [runBlockPresent, hb, hp, hblocks]
  · rw [run_rule_eq_block_absent re cfg r h]
    simp [runBlockAbsent, hb, hp, hblocks]

/-- C4 witness: a header matching nothing, once for each block rule type and
with opposite expect values. -/
theorem C4_witness :
    run_rule litRe "hostname X"
        ⟨"block_present", "T", "bbb", "absent", "aaa", none, "login"⟩ =
      ("FAIL", "aaa block not found", "-") ∧
    run_rule litRe "hostname X"
        ⟨"block_absent", "T", "bbb", "present", "aaa", none, "login"⟩ =
      ("FAIL", "aaa block not found", "-") := by
  constructor
  · exact C4_block_not_found_fail litRe "hostname X" _ (Or.inl (by decide))
      (by decide) (by decide) (by decide)
  · exact C4_block_not_found_fail litRe "hostname X" _ (Or.inr (by decide))
      (by decide) (by decide) (by decide)

/-- C10: for a block_present rule with non-empty block header and pattern,
when at least one block matches the header and the (lowered) expect value is
neither "present" nor "manual" — in particular "absent" — run_rule returns
status MANUAL with remark "Invalid expect value"; the absent polarity is
never applied to block_present. -/
theorem C10_block_present_invalid_expect (re : Re) (cfg : String) (r : Rule)
    (ht : pyStrip (pyLower r.type) = "block_present")
    (hb : r.block ≠ "") (hp : r.pattern ≠ "")
    (hblocks : extract_blocks (re.searchI ("^" ++ reEscape r.block)) cfg ≠ [])
    (he1 : pyLower r.expect ≠ "present") (he2 : pyLower r.expect ≠ "manual") :
    (run_rule re cfg r).1 = "MANUAL" ∧
    (run_rule re cfg r).2.1 = "Invalid expect value" := by
  rw [run_rule_eq_block_present re cfg r ht]
  simp [runBlockPresent, hb, hp, hblocks, he1, he2]

/-- C5 counterexample: an unsupported rule type degrades to MANUAL, but the
remark produced by the code is "Rule type not supported" (capital R), not the
string "rule type not supported" quoted by the claim. -/
theorem C5_counterexample_remark_capitalization :
    run_rule litRe "hostname R1" ⟨"nonexistent_type", "T", "x", "present", "", none, "login"⟩ =
      ("MANUAL", "Rule type not supported", "-") ∧
    ("Rule type not supported" : String) ≠ "rule type not supported" :=
  ⟨by decide, by decide⟩

/-- C5 amended: a pattern-requiring rule (regex, regex_capture,
regex_capture_all) with empty pattern yields MANUAL with remark
"<title> (pattern missing)"; a block rule (block_present, block_absent) with
empty block header or pattern yields MANUAL with remark
"<title> (block/pattern missing)"; a rule whose (lowered, stripped) type is
outside the supported kinds yields MANUAL with remark
"Rule type not supported" (capital R).  In every case the engine returns a
result rather than raising. -/
theorem C5_amended_manual_degradation (re : Re) (cfg : String) (r : Rule) :
    ((pyStrip (pyLower r.type) = "regex" ∨ pyStrip (pyLower r.type) = "regex_capture" ∨
      pyStrip (pyLower r.type) = "regex_capture_all") → r.pattern = "" →
      run_rule re cfg r = ("MANUAL", r.title ++ " (pattern missing)", "-")) ∧
    ((pyStrip (pyLower r.type) = "block_present" ∨
      pyStrip (pyLower r.type) = "block_absent") → r.block = "" ∨ r.pattern = "" →
      run_rule re cfg r = ("MANUAL", r.title ++ " (block/pattern missing)", "-")) ∧
    (pyStrip (pyLower r.type) ≠ "manual" → pyStrip (pyLower r.type) ≠ "regex" →
     pyStrip (pyLower r.type) ≠ "regex_capture" →
     pyStrip (pyLower r.type) ≠ "regex_capture_all" →
     pyStrip (pyLower r.type) ≠ "banner" → pyStrip (pyLower r.type) ≠ "block_present" →
     pyStrip (pyLower r.type) ≠ "block_absent" →
      run_rule re cfg r = ("MANUAL", "Rule type not supported", "-")) := by
  refine ⟨?_, ?_, ?_⟩
  · rintro (h | h | h) hp
    · rw [run_rule_eq_regex re cfg r h]; simp [runRegex, hp]
    · rw [run_rule_eq_regex_capture re cfg r h]; simp [runRegexCapture, hp]
    · rw [run_rule_eq_regex_capture_all re cfg r h]; simp [runRegexCaptureAll, hp]
  · rintro (h | h) hbp
    · rw [run_rule_eq_block_present re cfg r h]
      unfold runBlockPresent
      rw [if_pos hbp]
    · rw [run_rule_eq_block_absent re cfg r h]
      unfold runBlockAbsent
      rw [if_pos hbp]
  · intro h1 h2 h3 h4 h5 h6 h7
    exact run_rule_eq_unsupported re cfg r h1 h2 h3 h4 h5 h6 h7

/-- C5 witness: each degradation case at a concrete input. -/
theorem C5_witness :
    run_rule litRe "hostname R1" ⟨"regex", "MyRule", "", "present", "", none, "login"⟩ =
      ("MANUAL", "MyRule (pattern missing)", "-") ∧
    run_rule litRe "hostname R1" ⟨"block_present", "MyRule", "", "present", "b", none, "login"⟩ =
      ("MANUAL", "MyRule (block/pattern missing)", "-") ∧
    run_rule litRe "hostname R1" ⟨"weird", "MyRule", "x", "present", "", none, "login"⟩ =
      ("MANUAL", "Rule type not supported", "-") := by
  refine ⟨?_, ?_, ?_⟩
  · exact (C5_amended_manual_degradation litRe "hostname R1" _).1 (Or.inl rfl) rfl
  · exact (C5_amended_manual_degradation litRe "hostname R1" _).2.1 (Or.inl rfl) (Or.inr rfl)
  · exact (C5_amended_manual_degradation litRe "hostname R1" _).2.2 (by decide) (by decide)
      (by decide) (by decide) (by decide) (by decide) (by decide)

/-- C7: given a located banner declaration with declared delimiter sd, the
candidate end-delimiter list is sd followed by the "^C" fallback (collapsed to
just "^C" when sd is itself "^C", which also subsumes the middle
caret-and-longer-than-2 candidate after first-seen deduplication); the banner
is "not found" exactly when no candidate occurs alone (modulo surrounding
whitespace) on a line after the declaration; and a banner terminated on the
very first line after its declaration is reported as found with an empty
body, not as not-found. -/
theorem C7_banner_candidates_and_not_found (cfg t sd : String) (after : List String)
    (hfd : findDecl t (splitlines cfg) = some (sd, after)) :
    possible_end_delims sd = (if sd = "^C" then ["^C"] else [sd, "^C"]) ∧
    (extract_banner cfg t = none ↔
      ∀ d ∈ possible_end_delims sd, ∀ l ∈ after, pyStrip l ≠ d) ∧
    (∀ l0 rest, after = l0 :: rest → pyStrip l0 = sd →
      extract_banner cfg t =
        some ("banner " ++ t ++ " " ++ sd ++ "\n" ++ "" ++ "\n" ++ sd)) := by
  have hcand : possible_end_delims sd = (if sd = "^C" then ["^C"] else [sd, "^C"]) := by
    by_cases h : sd = "^C"
    · subst h; decide
    · have h3 : ¬("^C" = sd) := fun hh => h hh.symm
      unfold possible_end_delims
      by_cases h2 : strStarts "^" sd ∧ 2 < sd.length
      · rw [if_pos h2]; simp [dedupFirstAux, h, h3]
      · rw [if_neg h2]; simp [dedupFirstAux, h, h3]
  refine ⟨hcand, ?_, ?_⟩
  · cases hfind : (possible_end_delims sd).find?
        (fun d => after.any (fun l => pyStrip l == d)) with
    | none =>
      simp only [extract_banner, hfd, hfind]
      constructor
      · intro _ d hd l hl heq
        have hnone := List.find?_eq_none.mp hfind d hd
        exact hnone (List.any_eq_true.mpr ⟨l, hl, by simp [heq]⟩)
      · intro _; trivial
    | some d =>
      simp only [extract_banner, hfd, hfind]
      constructor
      · intro hsome; cases hsome
      · intro hall
        exfalso
        have hmem := List.mem_of_find?_eq_some hfind
        have hpred := List.find?_some hfind
        rcases List.any_eq_true.mp hpred with ⟨l, hl, heq⟩
        exact hall d hmem l hl (by simpa using heq)
  · intro l0 rest hafter hl0
    subst hafter
    have hpred : (l0 :: rest).any (fun l => pyStrip l == sd) = true :=
      List.any_eq_true.mpr ⟨l0, by simp, by simp [hl0]⟩
    have hfind : (possible_end_delims sd).find?
        (fun d => (l0 :: rest).any (fun l => pyStrip l == d)) = some sd := by
      rw [hcand]
      by_cases h : sd = "^C"
      · subst h; simp [List.find?, hpred]
      · rw [if_neg h]; simp [List.find?, hpred]
    have hbody : (l0 :: rest).takeWhile (fun l => pyStrip l != sd) = [] := by
      simp [List.takeWhile_cons, hl0]
    simp only [extract_banner, hfd, hfind, hbody]
    rfl

/-- C7 witness: a banner declaration terminated immediately (empty body). -/
theorem C7_witness :
    possible_end_delims "^C" = ["^C"] ∧
    extract_banner "banner motd ^C\n^C\nrest" "motd" = some "banner motd ^C\n\n^C" := by
  have h := C7_banner_candidates_and_not_found "banner motd ^C\n^C\nrest" "motd" "^C"
    ["^C", "rest"] (by decide)
  refine ⟨by simpa using h.1, ?_⟩
  exact (h.2.2 "^C" ["rest"] rfl (by decide)).trans (by decide)

theorem evidence_regex_ne (m : String → Bool) (text : String)
    (h : ∀ l ∈ splitlines text, m l = true → pyRstrip l ≠ "") :
    evidence_regex m text ≠ "" := by
  by_cases hev : (((splitlines text).filter m).take 8).map pyRstrip = []
  · simp only [evidence_regex, if_pos hev]; decide
  · simp only [evidence_regex, if_neg hev]
    apply joinWith_ne_empty _ _ hev
    intro x hx
    rcases List.mem_map.mp hx with ⟨l, hl, rfl⟩
    have hl2 : l ∈ (splitlines text).filter m := List.take_subset _ _ hl
    have hlf := List.mem_filter.mp hl2
    exact h l hlf.1 hlf.2

theorem runRegex_evidence_ne (re : Re) (cfg : String) (r : Rule)
    (h1 : ∀ l ∈ splitlines cfg, re.searchI r.pattern l = true → pyRstrip l ≠ "") :
    (runRegex re cfg r).2.2 ≠ "" := by
  by_cases hp : r.pattern = ""
  · simp [runRegex, hp]
  · have hev := evidence_regex_ne (re.searchI r.pattern) cfg h1
    simp only [runRegex, if_neg hp]
    by_cases e1 : pyLower r.expect = "present"
    · simp only [if_pos e1]
      by_cases f : re.searchMI r.pattern cfg = true <;> simp [f, hev]
    · simp only [if_neg e1]
      by_cases e2 : pyLower r.expect = "absent"
      · simp only [if_pos e2]
        by_cases f : re.searchMI r.pattern cfg = true <;> simp [f, hev]
      · simp only [if_neg e2]
        by_cases e3 : pyLower r.expect = "manual"
        · simp only [if_pos e3]
          by_cases f : re.searchMI r.pattern cfg = true <;> simp [f, hev]
        · simp [if_neg e3]

theorem runRegexCapture_evidence_ne (re : Re) (cfg : String) (r : Rule)
    (h2 : ∀ s, re.captureMI r.pattern cfg = some s → pyStrip s ≠ "") :
    (runRegexCapture re cfg r).2.2 ≠ "" := by
  by_cases hp : r.pattern = ""
  · simp [runRegexCapture, hp]
  · simp only [runRegexCapture, if_neg hp]
    cases hm : re.captureMI r.pattern cfg with
    | some s =>
      have hs := h2 s hm
      simp only [hm]
      split <;> (try split) <;> simp [hs]
    | none =>
      simp only [hm]
      split <;> (try split) <;> simp

theorem runRegexCaptureAll_evidence_ne (re : Re) (cfg : String) (r : Rule)
    (h3 : re.finditerMI r.pattern cfg ≠ [] →
          ∃ m ∈ re.finditerMI r.pattern cfg, pyStrip m ≠ "") :
    (runRegexCaptureAll re cfg r).2.2 ≠ "" := by
  by_cases hp : r.pattern = ""
  · simp [runRegexCaptureAll, hp]
  · simp only [runRegexCaptureAll, if_neg hp]
    by_cases hms : re.finditerMI r.pattern cfg = []
    · simp only [if_pos hms]; split <;> (try split) <;> simp
    · simp only [if_neg hms]
      rcases h3 hms with ⟨m, hmem, hmne⟩
      have hmem2 : pyStrip m ∈
          ((re.finditerMI r.pattern cfg).map pyStrip).filter (fun s => s ≠ "") :=
        List.mem_filter.mpr ⟨List.mem_map_of_mem _ hmem, by simpa using hmne⟩
      have hlne := List.ne_nil_of_mem hmem2
      have hne : (((re.finditerMI r.pattern cfg).map pyStrip).filter
          (fun s => s ≠ "")).take 200 ≠ [] := by
        rcases List.exists_cons_of_ne_nil hlne with ⟨a, tl, hEq⟩
        rw [hEq, List.take_cons (by norm_num)]
        simp
      have hall : ∀ x ∈ (((re.finditerMI r.pattern cfg).map pyStrip).filter
          (fun s => s ≠ "")).take 200, x ≠ "" := by
        intro x hx
        have := List.mem_filter.mp (List.take_subset _ _ hx)
        simpa using this.2
      have hev := joinWith_ne_empty "\n" _ hne hall
      split <;> (try split) <;> simpa using hev

theorem extract_banner_ne (cfg b t : String) (h : extract_banner cfg b = some t) :
    t ≠ "" := by
  cases hfd : findDecl b (splitlines cfg) with
  | none => rw [extract_banner, hfd] at h; cases h
  | some p =>
    obtain ⟨sd, after⟩ := p
    cases hfind : (possible_end_delims sd).find?
        (fun d => after.any (fun l => pyStrip l == d)) with
    | none => rw [extract_banner, hfd] at h; simp only [hfind] at h; cases h
    | some d =>
      rw [extract_banner, hfd] at h
      simp only [hfind] at h
      have hEq := Option.some.inj h
      intro ht
      rw [ht] at hEq
      have := congrArg String.data hEq
      simp [strData_append] at this

theorem runBanner_evidence_ne (cfg : String) (r : Rule) :
    (runBanner cfg r).2.2 ≠ "" := by
  simp only [runBanner]
  cases hb : extract_banner cfg (pyLower (pyStrip r.banner_type)) with
  | some t =>
    have ht := extract_banner_ne _ _ _ hb
    simp only [hb]
    split <;> (try split) <;> simp [ht]
  | none =>
    simp only [hb]
    split <;> (try split) <;> simp

theorem runBlockPresent_evidence_ne (re : Re) (cfg : String) (r : Rule) :
    (runBlockPresent re cfg r).2.2 ≠ "" := by
  simp only [runBlockPresent]
  split
  · simp
  · split
    · simp
    · split
      · split
        · simpa using orDash_ne _
        · simp
      · split
        · split
          · simpa using orDash_ne _
          · simp
        · simpa using orDash_ne _

theorem runBlockAbsent_evidence_ne (re : Re) (cfg : String) (r : Rule) :
    (runBlockAbsent re cfg r).2.2 ≠ "" := by
  simp only [runBlockAbsent]
  split
  · simp
  · split
    · simp
    · split
      · split
        · simpa using orDash_ne _
        · simp
      · simp

/-- C8 counterexample: the claim asserts evidence is never the empty string,
but a regex_capture rule whose matched substring is whitespace-only produces
evidence "" (not the "-" sentinel): re.search(" ", " ") matches " ", whose
strip() is "". -/
theorem C8_counterexample_empty_evidence :
    run_rule litRe " " ⟨"regex_capture", "T", " ", "present", "", none, "login"⟩ =
      ("PASS", "Matched", "") ∧ ("" : String) ≠ "-" :=
  ⟨by decide, by decide⟩

/-- C8 amended: the evidence component is never the empty string provided no
whitespace-only text is matched — that is, as long as every matching line has
a nonempty rstrip, every first-match capture has a nonempty strip, and (when
finditer finds anything) some finditer match has a nonempty strip.  Without
that proviso the regex, regex_capture and regex_capture_all branches can
return empty evidence; in every no-capture case the sentinel "-" is used. -/
theorem C8_amended_evidence_nonempty (re : Re) (cfg : String) (r : Rule)
    (h1 : ∀ l ∈ splitlines cfg, re.searchI r.pattern l = true → pyRstrip l ≠ "")
    (h2 : ∀ s, re.captureMI r.pattern cfg = some s → pyStrip s ≠ "")
    (h3 : re.finditerMI r.pattern cfg ≠ [] →
          ∃ m ∈ re.finditerMI r.pattern cfg, pyStrip m ≠ "") :
    (run_rule re cfg r).2.2 ≠ "" := by
  by_cases t1 : pyStrip (pyLower r.type) = "manual"
  · simp [run_rule_eq_manual re cfg r t1]
  · by_cases t2 : pyStrip (pyLower r.type) = "regex"
    · rw [run_rule_eq_regex re cfg r t2]; exact runRegex_evidence_ne re cfg r h1
    · by_cases t3 : pyStrip (pyLower r.type) = "regex_capture"
      · rw [run_rule_eq_regex_capture re cfg r t3]
        exact runRegexCapture_evidence_ne re cfg r h2
      · by_cases t4 : pyStrip (pyLower r.type) = "regex_capture_all"
        · rw [run_rule_eq_regex_capture_all re cfg r t4]
          exact runRegexCaptureAll_evidence_ne re cfg r h3
        · by_cases t5 : pyStrip (pyLower r.type) = "banner"
          · rw [run_rule_eq_banner re cfg r t5]; exact runBanner_evidence_ne cfg r
          · by_cases t6 : pyStrip (pyLower r.type) = "block_present"
            · rw [run_rule_eq_block_present re cfg r t6]
              exact runBlockPresent_evidence_ne re cfg r
            · by_cases t7 : pyStrip (pyLower r.type) = "block_absent"
              · rw [run_rule_eq_block_absent re cfg r t7]
                exact runBlockAbsent_evidence_ne re cfg r
              · simp [run_rule_eq_unsupported re cfg r t1 t2 t3 t4 t5 t6 t7]

/-- C8 witness: a regex rule whose matches are not whitespace-only. -/
theorem C8_witness :
    (run_rule litRe "hostname R1"
      ⟨"regex", "T", "hostname", "present", "", none, "login"⟩).2.2 ≠ "" := by
  apply C8_amended_evidence_nonempty
  · decide
  · intro s hs
    have hcap : litRe.captureMI "hostname" "hostname R1" = some "hostname" := by decide
    rw [hcap] at hs
    rw [← Option.some.inj hs]
    decide
  · intro _
    exact ⟨"hostname", by decide, by decide⟩

/-- C9 counterexample: the claim asserts that a text with exactly 3
non-overlapping matches yields a remark containing "3" and 3 evidence lines.
re.finditer(" ", "x x x x") has exactly 3 matches, but each strips to "", so
the code reports "Matched 0 entries" (no digit 3 anywhere) and an empty,
single-line evidence string. -/
theorem C9_counterexample_whitespace_matches :
    litRe.finditerMI " " "x x x x" = [" ", " ", " "] ∧
    run_rule litRe "x x x x" ⟨"regex_capture_all", "T", " ", "present", "", none, "login"⟩ =
      ("PASS", "Matched 0 entries", "") ∧
    ("Matched 0 entries" : String).data.count '3' = 0 ∧
    lineCount "" = 1 :=
  ⟨by decide, by decide, by decide, by decide⟩

/-- C9 amended: for a text with exactly 3 non-overlapping matches each of
which has nonempty, newline-free stripped text, a regex_capture_all rule with
expect=present yields remark "Matched 3 entries" (containing "3") and
evidence consisting of exactly 3 lines, each stripped matched substring on
its own line (the 200-entry cap is not reached). -/
theorem C9_amended_capture_all_three (re : Re) (cfg title p m1 m2 m3 : String)
    (hp : p ≠ "")
    (hm : re.finditerMI p cfg = [m1, m2, m3])
    (h1 : pyStrip m1 ≠ "") (h2 : pyStrip m2 ≠ "") (h3 : pyStrip m3 ≠ "")
    (n1 : (pyStrip m1).data.count '\n' = 0) (n2 : (pyStrip m2).data.count '\n' = 0)
    (n3 : (pyStrip m3).data.count '\n' = 0) :
    run_rule re cfg ⟨"regex_capture_all", title, p, "present", "", none, "login"⟩ =
      ("PASS", "Matched 3 entries",
        joinWith "\n" [pyStrip m1, pyStrip m2, pyStrip m3]) ∧
    ContainsStr "Matched 3 entries" "3" ∧
    lineCount (joinWith "\n" [pyStrip m1, pyStrip m2, pyStrip m3]) = 3 := by
  refine ⟨?_, ⟨"Matched ", " entries", by decide⟩, ?_⟩
  · rw [run_rule_eq_regex_capture_all re cfg
      ⟨"regex_capture_all", title, p, "present", "", none, "login"⟩ rfl]
    simp only [runRegexCaptureAll, if_neg hp, hm]
    have hol : (([m1, m2, m3].map pyStrip).filter (fun s => s ≠ "")) =
        [pyStrip m1, pyStrip m2, pyStrip m3] := by
      simp [h1, h2, h3]
    rw [if_neg (by simp : ¬([m1, m2, m3] = ([] : List String)))]
    rw [hol]
    simp [show pyLower "present" = "present" from rfl,
      show Nat.repr 3 = "3" from rfl, List.take]
  · have hcount : (joinWith "\n" [pyStrip m1, pyStrip m2, pyStrip m3]).data.count '\n' = 2 := by
      simp [joinWith, strData_append, List.count_append, n1, n2, n3,
        show (("\n" : String)).data = ['\n'] from rfl]
    simp [lineCount, hcount]

/-- C9 witness: three literal occurrences of "ssh". -/
theorem C9_witness :
    run_rule litRe "ssh\nssh\nssh"
        ⟨"regex_capture_all", "T", "ssh", "present", "", none, "login"⟩ =
      ("PASS", "Matched 3 entries", "ssh\nssh\nssh") := by
  have h := C9_amended_capture_all_three litRe "ssh\nssh\nssh" "T" "ssh" "ssh" "ssh" "ssh"
    (by decide) (by decide) (by decide) (by decide) (by decide) (by decide) (by decide)
    (by decide)
  exact h.1.trans (by decide)

/-- C10 witness: a matching block with expect=absent. -/
theorem C10_witness :
    (run_rule litRe "^aaa stanza\n no exec"
        ⟨"block_present", "T", "zzz", "absent", "aaa", none, "login"⟩).1 = "MANUAL" ∧
    (run_rule litRe "^aaa stanza\n no exec"
        ⟨"block_present", "T", "zzz", "absent", "aaa", none, "login"⟩).2.1 =
      "Invalid expect value" :=
  C10_block_present_invalid_expect litRe "^aaa stanza\n no exec" _ (by decide)
    (by decide) (by decide) (by decide) (by decide) (by decide)
